import Mathlib

/-!
Shallow embedding of the authentication / session-lifecycle core of the
GoFlutterRest repository (Go), covering:

* `pkg/apperror/errors.go` — the error taxonomy (`AppError`, constructors);
* `internal/domain/refresh_token.go` — refresh-token records and expiry;
* `internal/jwt` (`src/unnamed/part_000`) — the JWT codec
  (`GenerateAccessToken`, `GenerateRefreshToken`, `ValidateAccessToken`);
* `internal/repository/user_repository.go` and
  `internal/repository/refresh_token_repository.go` — the two stores,
  modelled as pure functions over lists, with an explicit `Bool` fault flag
  standing for a database-layer failure (gorm returning a non-not-found
  error);
* `internal/usecase` auth use case (in `internal/server/server.go` file
  bundle) — `Register`, `Login`, `Refresh`, `Logout`, `issueTokenPair`.

Time is modelled as `Nat`; `time.Now()` becomes an explicit `now` argument.
UUIDs for users are `Nat`s; the random refresh-token UUID string minted by
`GenerateRefreshToken` becomes an explicit `fresh : String` argument.
bcrypt hashing and comparison are modelled as function parameters
(`hashFn`, `bcryptCheck`), since their only property the use case relies on
is being a check of a password against a stored hash.
-/

namespace GoRest

/-! ## pkg/apperror/errors.go -/

namespace apperror

/-- `ErrorCode` from `errors.go`: machine-readable error type. -/
inductive ErrorCode
  | validationError
  | badRequest
  | unauthorized
  | tokenExpired
  | forbidden
  | notFound
  | conflict
  | fileTooLarge
  | unsupportedMedia
  | internalError
deriving DecidableEq, Repr

/-- `AppError` from `errors.go`: HTTP status, code, user-facing message and
an internal cause. (The validation `Details` field is omitted: the session
core never sets it.) -/
structure AppError where
  httpStatus : Nat
  code : ErrorCode
  message : String
  cause : Option String := none
deriving DecidableEq, Repr

def New (status : Nat) (code : ErrorCode) (message : String) : AppError :=
  { httpStatus := status, code := code, message := message }

def NewWithCause (status : Nat) (code : ErrorCode) (message : String)
    (cause : String) : AppError :=
  { httpStatus := status, code := code, message := message, cause := some cause }

def NotFound (resource : String) : AppError :=
  New 404 .notFound (resource ++ " not found")

def Unauthorized (msg : String) : AppError :=
  New 401 .unauthorized msg

def TokenExpired : AppError :=
  New 401 .tokenExpired "Access token has expired"

def Conflict (msg : String) : AppError :=
  New 409 .conflict msg

def Internal (cause : String) : AppError :=
  NewWithCause 500 .internalError
    "An unexpected error occurred. Please try again later." cause

end apperror

/-! ## strings (Go standard library helper used by the use case) -/

namespace strings

/-- `strings.ToLower` (ASCII fragment relevant to emails): lowercase every
character. -/
def ToLower (s : String) : String :=
  ⟨s.data.map Char.toLower⟩

end strings

/-! ## internal/domain -/

namespace domain

/-- `domain.User` (timestamps omitted; the ID is a `Nat` model of the UUID). -/
structure User where
  id : Nat
  name : String
  email : String
  password : String
  bio : String := ""
  avatarID : Option Nat := none
deriving DecidableEq, Repr

/-- `domain.UserPublic`: safe public representation (no password). -/
structure UserPublic where
  id : Nat
  name : String
  email : String
  bio : String
  avatarID : Option Nat
deriving DecidableEq, Repr

/-- `User.ToPublic` from `user.go`. -/
def User.ToPublic (u : User) : UserPublic :=
  { id := u.id, name := u.name, email := u.email, bio := u.bio,
    avatarID := u.avatarID }

/-- `domain.RefreshToken` from `refresh_token.go` (`CreatedAt` omitted). -/
structure RefreshToken where
  id : Nat := 0
  userID : Nat
  token : String
  expiresAt : Nat
deriving DecidableEq, Repr

/-- `RefreshToken.IsExpired`: `time.Now().UTC().After(r.ExpiresAt)` — the
token is expired iff `now` is strictly after `expiresAt`. -/
def RefreshToken.IsExpired (r : RefreshToken) (now : Nat) : Bool :=
  r.expiresAt < now

end domain

/-! ## internal/config (the JWT slice used by the session core) -/

namespace config

/-- The JWT slice of `config.Config`. -/
structure JWTConfig where
  accessSecret : String
  accessExpiresDuration : Nat
  refreshExpiresDuration : Nat
deriving DecidableEq, Repr

end config

/-! ## internal/jwt (src/unnamed/part_000) -/

namespace jwt

/-- JWT signing algorithms relevant to the codec. The golang-jwt `Keyfunc`
in `ValidateAccessToken` accepts exactly the `SigningMethodHMAC` family. -/
inductive Alg
  | HS256
  | HS384
  | HS512
  | RS256
  | algNone
deriving DecidableEq, Repr

/-- Whether the algorithm is in golang-jwt's `SigningMethodHMAC` family. -/
def Alg.isHMAC : Alg → Bool
  | .HS256 | .HS384 | .HS512 => true
  | _ => false

/-- `jwt.Claims`: custom claims plus the registered claims the code sets. -/
structure Claims where
  userID : Nat
  email : String
  expiresAt : Nat
  issuedAt : Nat
  subject : String
deriving DecidableEq, Repr

/-- A structurally well-formed JWT: header algorithm, payload claims, and an
idealized signature recorded as the algorithm and key that actually
produced it (verification with key `k` succeeds iff the signature was made
with the header's algorithm and with `k`). -/
structure SignedToken where
  alg : Alg
  claims : Claims
  sigAlg : Alg
  sigKey : String
deriving DecidableEq, Repr

/-- An arbitrary input string to `ValidateAccessToken`: either it fails
structural JWT parsing, or it decodes to a `SignedToken`. -/
inductive TokenInput
  | malformed
  | wellFormed (t : SignedToken)
deriving DecidableEq, Repr

/-- The distinct failure stages of `golang-jwt/v5` `ParseWithClaims` as used
here: structural parse failure, keyfunc rejection (non-HMAC header alg),
signature mismatch, and claim validation failure (expiry). v5 checks in
this order: parse, keyfunc, signature, claims. -/
inductive ParseErr
  | malformedToken
  | keyfuncFailed
  | signatureInvalid
  | tokenExpired
deriving DecidableEq, Repr

/-- `gojwt.ParseWithClaims` with the keyfunc from `ValidateAccessToken`:
reject non-HMAC header algorithms, otherwise hand back the access secret;
then verify the signature; then validate claims (expiry: the v5 validator
accepts while `now` is strictly before `exp`). -/
def parseWithClaims (secret : String) (now : Nat) :
    TokenInput → Except ParseErr Claims
  | .malformed => .error .malformedToken
  | .wellFormed t =>
    if ¬ t.alg.isHMAC then .error .keyfuncFailed
    else if ¬ (t.sigAlg = t.alg ∧ t.sigKey = secret) then .error .signatureInvalid
    else if t.claims.expiresAt ≤ now then .error .tokenExpired
    else .ok t.claims

/-- `Service.GenerateAccessToken`: HS256 token over the user's ID and email,
expiring `AccessExpiresDuration` from now, signed with the access secret. -/
def GenerateAccessToken (cfg : config.JWTConfig) (now : Nat)
    (userID : Nat) (email : String) : TokenInput :=
  .wellFormed
    { alg := .HS256,
      claims :=
        { userID := userID, email := email,
          expiresAt := now + cfg.accessExpiresDuration,
          issuedAt := now, subject := toString userID },
      sigAlg := .HS256, sigKey := cfg.accessSecret }

/-- `Service.ValidateAccessToken`: map `ErrTokenExpired` to the distinct
`TokenExpired` app error and every other parse failure to one generic
`Unauthorized`. (The final `token.Claims.(*Claims)` cast and `token.Valid`
re-check in the Go code cannot fail once `ParseWithClaims` returned no
error, since the claims value passed in is `*Claims` itself.) -/
def ValidateAccessToken (cfg : config.JWTConfig) (now : Nat)
    (input : TokenInput) : Except apperror.AppError Claims :=
  match parseWithClaims cfg.accessSecret now input with
  | .error .tokenExpired => .error apperror.TokenExpired
  | .error _ => .error (apperror.Unauthorized "invalid or malformed token")
  | .ok claims => .ok claims

end jwt

/-! ## internal/repository

The two stores are modelled as pure functions over the in-memory list that
stands for their table. Each database call takes a `Bool` fault flag: `true`
means gorm reported a database-layer error (not `ErrRecordNotFound`), and
the operation leaves the table unchanged. -/

namespace repository

open domain apperror

/-- A raw (unclassified) database error, as returned by gorm `Delete`. -/
inductive DbErr
  | dbFailure
deriving DecidableEq, Repr

/-- `userRepository.GetByEmail`: `First(&user, "email = ?", email)`;
not-found maps to `apperror.NotFound("User")`, any other database error to
`apperror.Internal`. -/
def UserRepository.GetByEmail (users : List User) (email : String)
    (dbFail : Bool) : Except AppError User :=
  if dbFail then .error (Internal "database failure")
  else
    match users.find? (fun u => u.email == email) with
    | some u => .ok u
    | none => .error (NotFound "User")

/-- `userRepository.GetByID`: same error mapping as `GetByEmail`. -/
def UserRepository.GetByID (users : List User) (id : Nat)
    (dbFail : Bool) : Except AppError User :=
  if dbFail then .error (Internal "database failure")
  else
    match users.find? (fun u => u.id == id) with
    | some u => .ok u
    | none => .error (NotFound "User")

/-- `userRepository.Create`: insert the row; a database error maps to
`apperror.Internal`. -/
def UserRepository.Create (users : List User) (user : User)
    (dbFail : Bool) : Except AppError (List User) :=
  if dbFail then .error (Internal "database failure")
  else .ok (users ++ [user])

/-- `refreshTokenRepository.Save`: insert the row; a database error maps to
`apperror.Internal`. -/
def RefreshTokenRepository.Save (tokens : List RefreshToken)
    (record : RefreshToken) (dbFail : Bool) :
    Except AppError (List RefreshToken) :=
  if dbFail then .error (Internal "database failure")
  else .ok (tokens ++ [record])

/-- `refreshTokenRepository.GetByToken`: `First(&token, "token = ?", v)`;
not-found maps to `Unauthorized("refresh token not found or already used")`,
any other database error to `apperror.Internal`. -/
def RefreshTokenRepository.GetByToken (tokens : List RefreshToken)
    (tokenStr : String) (dbFail : Bool) : Except AppError RefreshToken :=
  if dbFail then .error (Internal "database failure")
  else
    match tokens.find? (fun r => r.token == tokenStr) with
    | some r => .ok r
    | none => .error (Unauthorized "refresh token not found or already used")

/-- `refreshTokenRepository.DeleteByToken`: `Where("token = ?", v).Delete`.
Deleting zero rows is not an error; the raw gorm error is returned
unclassified. -/
def RefreshTokenRepository.DeleteByToken (tokens : List RefreshToken)
    (tokenStr : String) (dbFail : Bool) :
    Except DbErr (List RefreshToken) :=
  if dbFail then .error .dbFailure
  else .ok (tokens.filter (fun r => r.token != tokenStr))

end repository

/-! ## internal/usecase — AuthUseCase -/

namespace usecase

open domain apperror repository

/-- `usecase.RegisterInput` (binding/validation tags are out of scope). -/
structure RegisterInput where
  name : String
  email : String
  password : String
deriving DecidableEq, Repr

/-- `usecase.LoginInput`. -/
structure LoginInput where
  email : String
  password : String
deriving DecidableEq, Repr

/-- `usecase.TokenPair`. The access token keeps its structured model. -/
structure TokenPair where
  accessToken : jwt.TokenInput
  refreshToken : String
  tokenType : String
deriving DecidableEq, Repr

/-- The combined state of the two stores the auth use case touches. -/
structure AuthState where
  users : List User
  tokens : List RefreshToken
deriving DecidableEq, Repr

/-- Fault flags for the database calls made by `Register`. `hash` stands
for `bcrypt.GenerateFromPassword` returning an error. -/
structure RegisterFaults where
  getByEmail : Bool := false
  hash : Bool := false
  create : Bool := false
deriving DecidableEq, Repr

/-- Fault flags for the calls made by `issueTokenPair`. `accessGen` and
`refreshGen` stand for token-generation errors. -/
structure IssueFaults where
  accessGen : Bool := false
  refreshGen : Bool := false
  save : Bool := false
deriving DecidableEq, Repr

/-- Fault flags for the calls made by `Login`. -/
structure LoginFaults where
  getByEmail : Bool := false
  issue : IssueFaults := {}
deriving DecidableEq, Repr

/-- Fault flags for the calls made by `Refresh`. -/
structure RefreshFaults where
  getToken : Bool := false
  deleteExpired : Bool := false
  getUser : Bool := false
  deleteOld : Bool := false
  issue : IssueFaults := {}
deriving DecidableEq, Repr

/-- `AuthUseCase.Register`: lookup by lowercased email; a successful lookup
is a `Conflict`; ANY lookup error (not-found or internal) falls through to
hashing and creating the account with the lowercased email. -/
def Register (st : AuthState) (input : RegisterInput)
    (hashFn : String → String) (f : RegisterFaults) :
    Except AppError UserPublic × AuthState :=
  match UserRepository.GetByEmail st.users (strings.ToLower input.email) f.getByEmail with
  | .ok _ => (.error (Conflict "Email is already registered"), st)
  | .error _ =>
    if f.hash then (.error (Internal "bcrypt failure"), st)
    else
      let user : User :=
        { id := 0, name := input.name, email := (strings.ToLower input.email),
          password := hashFn input.password }
      match UserRepository.Create st.users user f.create with
      | .error e => (.error e, st)
      | .ok users => (.ok user.ToPublic, { st with users := users })

/-- `AuthUseCase.issueTokenPair`: generate the access token, mint the
opaque refresh value (`fresh`), persist the refresh record expiring
`RefreshExpiresDuration` from now, and return the pair. A persistence
failure fails the whole operation. -/
def issueTokenPair (cfg : config.JWTConfig) (st : AuthState) (user : User)
    (now : Nat) (fresh : String) (f : IssueFaults) :
    Except AppError TokenPair × AuthState :=
  if f.accessGen then (.error (Internal "signing failure"), st)
  else
    let accessToken := jwt.GenerateAccessToken cfg now user.id user.email
    if f.refreshGen then (.error (Internal "uuid failure"), st)
    else
      let refreshRecord : RefreshToken :=
        { userID := user.id, token := fresh,
          expiresAt := now + cfg.refreshExpiresDuration }
      match RefreshTokenRepository.Save st.tokens refreshRecord f.save with
      | .error e => (.error e, st)
      | .ok ts =>
        (.ok { accessToken := accessToken, refreshToken := fresh,
               tokenType := "Bearer" },
         { st with tokens := ts })

/-- `AuthUseCase.Login`: lookup by lowercased email; any lookup error and
any bcrypt mismatch both yield the same generic
`Unauthorized("Invalid email or password")`; on success issue a pair.
`bcryptCheck hash password` models `bcrypt.CompareHashAndPassword`
returning nil. -/
def Login (cfg : config.JWTConfig) (st : AuthState) (input : LoginInput)
    (bcryptCheck : String → String → Bool) (now : Nat) (fresh : String)
    (f : LoginFaults) : Except AppError TokenPair × AuthState :=
  match UserRepository.GetByEmail st.users (strings.ToLower input.email) f.getByEmail with
  | .error _ => (.error (Unauthorized "Invalid email or password"), st)
  | .ok user =>
    if bcryptCheck user.password input.password then
      issueTokenPair cfg st user now fresh f.issue
    else
      (.error (Unauthorized "Invalid email or password"), st)

/-- `AuthUseCase.Refresh`: look the token up; if expired, best-effort delete
it (error discarded) and fail `Unauthorized`; otherwise load the user,
best-effort delete the old record (rotation, error discarded), and issue a
new pair. -/
def Refresh (cfg : config.JWTConfig) (st : AuthState)
    (refreshTokenStr : String) (now : Nat) (fresh : String)
    (f : RefreshFaults) : Except AppError TokenPair × AuthState :=
  match RefreshTokenRepository.GetByToken st.tokens refreshTokenStr f.getToken with
  | .error e => (.error e, st)
  | .ok storedToken =>
    if storedToken.IsExpired now then
      let st1 :=
        match RefreshTokenRepository.DeleteByToken st.tokens refreshTokenStr
            f.deleteExpired with
        | .ok ts => { st with tokens := ts }
        | .error _ => st
      (.error (Unauthorized "Refresh token has expired, please login again"), st1)
    else
      match UserRepository.GetByID st.users storedToken.userID f.getUser with
      | .error e => (.error e, st)
      | .ok user =>
        let st2 :=
          match RefreshTokenRepository.DeleteByToken st.tokens refreshTokenStr
              f.deleteOld with
          | .ok ts => { st with tokens := ts }
          | .error _ => st
        issueTokenPair cfg st2 user now fresh f.issue

/-- `AuthUseCase.Logout`: delete the record; the repository's raw result is
returned as-is (deleting a non-existent record succeeds). -/
def Logout (st : AuthState) (refreshTokenStr : String) (dbFail : Bool) :
    Except DbErr Unit × AuthState :=
  match RefreshTokenRepository.DeleteByToken st.tokens refreshTokenStr dbFail with
  | .ok ts => (.ok (), { st with tokens := ts })
  | .error e => (.error e, st)

end usecase

/-! ## Theorems about the claims -/

namespace usecase

open domain apperror repository

/-- C2: Login is enumeration-resistant: for every credential-store state, a
Login with an email that has no account and a Login with an existing email
but a wrong password both fail with one identical error: kind
`Unauthorized`, HTTP status 401, byte-identical message. -/
theorem login_enumeration_resistant
    (cfg : config.JWTConfig) (st : AuthState)
    (bcryptCheck : String → String → Bool) (now : Nat) (fresh : String)
    (e1 e2 : LoginInput) (u : User)
    (h1 : st.users.find? (fun x => x.email == (strings.ToLower e1.email)) = none)
    (h2 : st.users.find? (fun x => x.email == (strings.ToLower e2.email)) = some u)
    (hpw : bcryptCheck u.password e2.password = false) :
    ∃ err : AppError,
      (Login cfg st e1 bcryptCheck now fresh {}).1 = .error err ∧
      (Login cfg st e2 bcryptCheck now fresh {}).1 = .error err ∧
      err.code = .unauthorized ∧ err.httpStatus = 401 ∧
      err.message = "Invalid email or password" := by
  refine ⟨Unauthorized "Invalid email or password", ?_, ?_, rfl, rfl, rfl⟩
  · simp [Login, UserRepository.GetByEmail, h1]
  · simp [Login, UserRepository.GetByEmail, h2, hpw]

/-- C2 witness: a concrete two-failure instance. -/
theorem login_enumeration_resistant_witness :
    ∃ err : GoRest.apperror.AppError,
      (Login ⟨"s", 10, 100⟩
        ⟨[⟨1, "Alice", "a@x.io", "H:pw", "", none⟩], []⟩
        ⟨"ghost@x.io", "pw"⟩ (fun h p => h == "H:" ++ p) 0 "f" {}).1 =
          .error err ∧
      (Login ⟨"s", 10, 100⟩
        ⟨[⟨1, "Alice", "a@x.io", "H:pw", "", none⟩], []⟩
        ⟨"a@x.io", "wrong"⟩ (fun h p => h == "H:" ++ p) 0 "f" {}).1 =
          .error err ∧
      err.code = .unauthorized ∧ err.httpStatus = 401 ∧
      err.message = "Invalid email or password" :=
  login_enumeration_resistant ⟨"s", 10, 100⟩
    ⟨[⟨1, "Alice", "a@x.io", "H:pw", "", none⟩], []⟩
    (fun h p => h == "H:" ++ p) 0 "f"
    ⟨"ghost@x.io", "pw"⟩ ⟨"a@x.io", "wrong"⟩
    ⟨1, "Alice", "a@x.io", "H:pw", "", none⟩
    (by decide) (by decide) (by decide)

/-- C8: issueTokenPair has no partial success: whenever persisting the new
refresh record fails, the whole operation returns an error (no token pair)
and the state is unchanged. -/
theorem issue_token_pair_all_or_nothing
    (cfg : config.JWTConfig) (st : AuthState) (user : User) (now : Nat)
    (fresh : String) (f : IssueFaults) (hsave : f.save = true) :
    ∃ e : AppError, issueTokenPair cfg st user now fresh f = (.error e, st) := by
  cases hacc : f.accessGen <;> cases href : f.refreshGen <;>
    simp [issueTokenPair, RefreshTokenRepository.Save, hacc, href, hsave]

/-- C8 witness: concrete save failure. -/
theorem issue_token_pair_all_or_nothing_witness :
    ∃ e : GoRest.apperror.AppError,
      issueTokenPair ⟨"s", 10, 100⟩ ⟨[], []⟩ ⟨1, "A", "a@x.io", "H", "", none⟩
        0 "f" { save := true } = (.error e, ⟨[], []⟩) :=
  issue_token_pair_all_or_nothing ⟨"s", 10, 100⟩ ⟨[], []⟩
    ⟨1, "A", "a@x.io", "H", "", none⟩ 0 "f" { save := true } rfl

/-- C10: Register takes the Conflict branch exactly when the email lookup
succeeds; any lookup error — not-found or an internal store failure — is
treated as "email unregistered" and Register proceeds to hash the password
and create the account, never propagating the lookup failure. -/
theorem register_proceeds_on_lookup_error
    (st : AuthState) (i : RegisterInput) (hashFn : String → String)
    (f : RegisterFaults)
    (hlookup : f.getByEmail = true ∨
      st.users.find? (fun u => u.email == (strings.ToLower i.email)) = none)
    (hhash : f.hash = false) (hcreate : f.create = false) :
    Register st i hashFn f =
      (.ok { id := 0, name := i.name, email := (strings.ToLower i.email), bio := "",
             avatarID := none },
       { st with users := st.users ++
          [{ id := 0, name := i.name, email := (strings.ToLower i.email),
             password := hashFn i.password }] }) := by
  rcases hlookup with hdb | hnone
  · simp [Register, UserRepository.GetByEmail, UserRepository.Create,
      User.ToPublic, hdb, hhash, hcreate]
  · cases hg : f.getByEmail <;>
      simp [Register, UserRepository.GetByEmail, UserRepository.Create,
        User.ToPublic, hnone, hg, hhash, hcreate]

/-- C10 witness: the lookup reports an internal store failure while the
email in fact exists, and Register still creates the (duplicate) account. -/
theorem register_proceeds_on_lookup_error_witness :
    Register ⟨[⟨1, "Alice", "a@x.io", "H", "", none⟩], []⟩
      ⟨"Bob", "A@X.io", "pw"⟩ (fun p => "H:" ++ p) { getByEmail := true } =
      (.ok { id := 0, name := "Bob", email := "a@x.io", bio := "",
             avatarID := none },
       ⟨[⟨1, "Alice", "a@x.io", "H", "", none⟩,
         ⟨0, "Bob", "a@x.io", "H:pw", "", none⟩], []⟩) :=
  register_proceeds_on_lookup_error
    ⟨[⟨1, "Alice", "a@x.io", "H", "", none⟩], []⟩
    ⟨"Bob", "A@X.io", "pw"⟩ (fun p => "H:" ++ p) { getByEmail := true }
    (Or.inl rfl) rfl rfl

/-- Helper: a register call hits the Conflict branch whenever some stored
user carries exactly the lowercased input email. -/
theorem register_conflict_of_mem (st : AuthState) (i : RegisterInput)
    (hashFn : String → String)
    (h : ∃ u ∈ st.users, u.email = strings.ToLower i.email) :
    Register st i hashFn {} =
      (.error (Conflict "Email is already registered"), st) := by
  obtain ⟨u, hu, he⟩ := h
  have hsome : (st.users.find? (fun x => x.email == strings.ToLower i.email)).isSome :=
    List.find?_isSome.mpr ⟨u, hu, by simp [he]⟩
  obtain ⟨w, hw⟩ := Option.isSome_iff_exists.mp hsome
  simp [Register, UserRepository.GetByEmail, hw]

/-- C6: registering with an email whose normalized (lowercased) form is
already stored yields `Conflict` and persists nothing; a successful (first)
registration stores the lowercased email; and a second registration with a
case-insensitively equal email then yields `Conflict`. -/
theorem register_duplicate_email_conflict (st : AuthState)
    (i : RegisterInput) (hashFn : String → String) :
    ((∃ u ∈ st.users, u.email = strings.ToLower i.email) →
      Register st i hashFn {} =
        (.error (Conflict "Email is already registered"), st)) ∧
    (∀ (pub : UserPublic) (st' : AuthState),
      Register st i hashFn {} = (.ok pub, st') →
      pub.email = strings.ToLower i.email ∧
      st'.users = st.users ++
        [{ id := 0, name := i.name, email := strings.ToLower i.email,
           password := hashFn i.password }]) ∧
    (∀ (i2 : RegisterInput) (pub : UserPublic) (st' : AuthState),
      Register st i hashFn {} = (.ok pub, st') →
      strings.ToLower i2.email = strings.ToLower i.email →
      (Register st' i2 hashFn {}).1 =
        .error (Conflict "Email is already registered")) := by
  have hsucc : ∀ (pub : UserPublic) (st' : AuthState),
      Register st i hashFn {} = (.ok pub, st') →
      pub.email = strings.ToLower i.email ∧
      st'.users = st.users ++
        [{ id := 0, name := i.name, email := strings.ToLower i.email,
           password := hashFn i.password }] := by
    intro pub st' h
    cases hf : st.users.find? (fun x => x.email == strings.ToLower i.email) with
    | some w =>
      simp [Register, UserRepository.GetByEmail, hf] at h
    | none =>
      simp [Register, UserRepository.GetByEmail, UserRepository.Create,
        User.ToPublic, hf] at h
      obtain ⟨h1, h2⟩ := h
      subst h1
      subst h2
      exact ⟨rfl, rfl⟩
  refine ⟨register_conflict_of_mem st i hashFn, hsucc, ?_⟩
  intro i2 pub st' h hcase
  have hmem := (hsucc pub st' h).2
  have : Register st' i2 hashFn {} =
      (.error (Conflict "Email is already registered"), st') := by
    apply register_conflict_of_mem
    refine ⟨{ id := 0, name := i.name, email := strings.ToLower i.email,
              password := hashFn i.password }, ?_, by simpa using hcase.symm⟩
    rw [hmem]
    simp
  rw [this]

/-- C6 witness: "Al@X.io" then "al@X.IO" — the second registration hits
`Conflict` against the lowercased stored email. -/
theorem register_duplicate_email_conflict_witness :
    (Register
      ⟨[⟨0, "Al", "al@x.io", "H:pw", "", none⟩], []⟩
      ⟨"Al2", "al@X.IO", "pw2"⟩ (fun p => "H:" ++ p) {}).1 =
      .error (Conflict "Email is already registered") := by
  have h := (register_duplicate_email_conflict
      ⟨[⟨0, "Al", "al@x.io", "H:pw", "", none⟩], []⟩
      ⟨"Al2", "al@X.IO", "pw2"⟩ (fun p => "H:" ++ p)).1
      ⟨⟨0, "Al", "al@x.io", "H:pw", "", none⟩, by decide, by decide⟩
  rw [h]

/-- Helper: no record in a token-filtered list still carries the filtered
value. -/
theorem token_filtered_out (tokens : List RefreshToken) (v : String) :
    ∀ t ∈ tokens.filter (fun r => r.token != v), t.token ≠ v := by
  intro t ht
  have := (List.mem_filter.mp ht).2
  simpa using this

/-- Helper: lookup by token value fails on a list in which no record
carries that value. -/
theorem find?_token_eq_none (tokens : List RefreshToken) (v : String)
    (h : ∀ t ∈ tokens, t.token ≠ v) :
    tokens.find? (fun r => r.token == v) = none :=
  List.find?_eq_none.mpr (fun x hx => by simpa using h x hx)

/-- C7: Logout is idempotent: it removes every record with the given value
and succeeds, a second Logout with the same value also succeeds (and is a
no-op), and a subsequent Refresh with that value fails. -/
theorem logout_idempotent (cfg : config.JWTConfig) (st : AuthState)
    (v : String) (now : Nat) (fresh : String) :
    ∃ st' : AuthState,
      Logout st v false = (.ok (), st') ∧
      (∀ t ∈ st'.tokens, t.token ≠ v) ∧
      Logout st' v false = (.ok (), st') ∧
      (Refresh cfg st' v now fresh {}).1 =
        .error (Unauthorized "refresh token not found or already used") := by
  refine ⟨{ st with tokens := st.tokens.filter (fun r => r.token != v) },
    ?_, token_filtered_out st.tokens v, ?_, ?_⟩
  · simp [Logout, RefreshTokenRepository.DeleteByToken]
  · have hself : (st.tokens.filter (fun r => r.token != v)).filter
        (fun r => r.token != v) = st.tokens.filter (fun r => r.token != v) :=
      List.filter_eq_self.mpr (fun x hx => (List.mem_filter.mp hx).2)
    simp [Logout, RefreshTokenRepository.DeleteByToken, hself]
  · have hnone := find?_token_eq_none _ v (token_filtered_out st.tokens v)
    simp [Refresh, RefreshTokenRepository.GetByToken, hnone]

/-- C7 witness: a concrete double logout followed by a failing refresh. -/
theorem logout_idempotent_witness :
    ∃ st' : AuthState,
      Logout ⟨[], [⟨0, 7, "v", 5⟩]⟩ "v" false = (.ok (), st') ∧
      (∀ t ∈ st'.tokens, t.token ≠ "v") ∧
      Logout st' "v" false = (.ok (), st') ∧
      (Refresh ⟨"s", 10, 100⟩ st' "v" 0 "w" {}).1 =
        .error (Unauthorized "refresh token not found or already used") :=
  logout_idempotent ⟨"s", 10, 100⟩ ⟨[], [⟨0, 7, "v", 5⟩]⟩ "v" 0 "w"

/-- C1: refresh rotation is single-use: from a ledger holding a valid
(unexpired) record with value `v` (and the owning user present), a Refresh
with `v` succeeds, the old record for `v` is gone from the resulting
ledger, and a subsequent sequential Refresh with the same old value fails
with `Unauthorized`. (`fresh ≠ v` models the freshly minted UUID differing
from the consumed value.) -/
theorem refresh_rotation_single_use (cfg : config.JWTConfig)
    (st : AuthState) (v fresh : String) (now : Nat)
    (r : RefreshToken) (u : User)
    (hfind : st.tokens.find? (fun t => t.token == v) = some r)
    (hvalid : r.IsExpired now = false)
    (huser : st.users.find? (fun x => x.id == r.userID) = some u)
    (hfresh : fresh ≠ v) :
    ∃ (pair : TokenPair) (st' : AuthState),
      Refresh cfg st v now fresh {} = (.ok pair, st') ∧
      (∀ t ∈ st'.tokens, t.token ≠ v) ∧
      ∀ (now2 : Nat) (fresh2 : String),
        (Refresh cfg st' v now2 fresh2 {}).1 =
          .error (Unauthorized "refresh token not found or already used") := by
  have hgone : ∀ t ∈ st.tokens.filter (fun x => x.token != v) ++
      [({ userID := u.id, token := fresh,
          expiresAt := now + cfg.refreshExpiresDuration } : RefreshToken)],
      t.token ≠ v := by
    intro t ht
    rcases List.mem_append.mp ht with h | h
    · exact token_filtered_out st.tokens v t h
    · rcases List.mem_singleton.mp h with rfl
      exact hfresh
  refine ⟨{ accessToken := jwt.GenerateAccessToken cfg now u.id u.email,
            refreshToken := fresh, tokenType := "Bearer" },
    { st with tokens := st.tokens.filter (fun x => x.token != v) ++
        [{ userID := u.id, token := fresh,
           expiresAt := now + cfg.refreshExpiresDuration }] },
    ?_, hgone, ?_⟩
  · simp [Refresh, RefreshTokenRepository.GetByToken, hfind, hvalid,
      UserRepository.GetByID, huser, RefreshTokenRepository.DeleteByToken,
      issueTokenPair, RefreshTokenRepository.Save]
  · intro now2 fresh2
    have hnone := find?_token_eq_none _ v hgone
    simp [Refresh, RefreshTokenRepository.GetByToken, hnone]

/-- C1 witness: one concrete rotation. -/
theorem refresh_rotation_single_use_witness :
    ∃ (pair : TokenPair) (st' : AuthState),
      Refresh ⟨"s", 10, 100⟩
          ⟨[⟨7, "A", "a@x.io", "H", "", none⟩], [⟨0, 7, "v", 9⟩]⟩
          "v" 5 "w" {} = (.ok pair, st') ∧
      (∀ t ∈ st'.tokens, t.token ≠ "v") ∧
      ∀ (now2 : Nat) (fresh2 : String),
        (Refresh ⟨"s", 10, 100⟩ st' "v" now2 fresh2 {}).1 =
          .error (Unauthorized "refresh token not found or already used") :=
  refresh_rotation_single_use ⟨"s", 10, 100⟩
    ⟨[⟨7, "A", "a@x.io", "H", "", none⟩], [⟨0, 7, "v", 9⟩]⟩
    "v" "w" 5 ⟨0, 7, "v", 9⟩ ⟨7, "A", "a@x.io", "H", "", none⟩
    (by decide) (by decide) (by decide) (by decide)

/-- C9: the rotation delete's error result is discarded: when the old
record is found and unexpired, the owning user exists, and the
delete-by-value call fails, Refresh still persists the new record and
returns a fresh pair — and the old record is still in the ledger. -/
theorem refresh_discards_delete_error (cfg : config.JWTConfig)
    (st : AuthState) (v fresh : String) (now : Nat)
    (r : RefreshToken) (u : User)
    (hfind : st.tokens.find? (fun t => t.token == v) = some r)
    (hvalid : r.IsExpired now = false)
    (huser : st.users.find? (fun x => x.id == r.userID) = some u) :
    ∃ pair : TokenPair,
      Refresh cfg st v now fresh { deleteOld := true } =
        (.ok pair,
         { st with tokens := st.tokens ++
            [{ userID := u.id, token := fresh,
               expiresAt := now + cfg.refreshExpiresDuration }] }) ∧
      r ∈ st.tokens ++
        [({ userID := u.id, token := fresh,
            expiresAt := now + cfg.refreshExpiresDuration } : RefreshToken)] := by
  refine ⟨{ accessToken := jwt.GenerateAccessToken cfg now u.id u.email,
            refreshToken := fresh, tokenType := "Bearer" }, ?_, ?_⟩
  · simp [Refresh, RefreshTokenRepository.GetByToken, hfind, hvalid,
      UserRepository.GetByID, huser, RefreshTokenRepository.DeleteByToken,
      issueTokenPair, RefreshTokenRepository.Save]
  · exact List.mem_append_left _ (List.mem_of_find?_eq_some hfind)

/-- C9 witness: a concrete refresh whose rotation delete fails. -/
theorem refresh_discards_delete_error_witness :
    ∃ pair : TokenPair,
      Refresh ⟨"s", 10, 100⟩
          ⟨[⟨7, "A", "a@x.io", "H", "", none⟩], [⟨0, 7, "v", 9⟩]⟩
          "v" 5 "w" { deleteOld := true } =
        (.ok pair,
         ⟨[⟨7, "A", "a@x.io", "H", "", none⟩],
          [⟨0, 7, "v", 9⟩, ⟨0, 7, "w", 105⟩]⟩) ∧
      (⟨0, 7, "v", 9⟩ : RefreshToken) ∈
        [(⟨0, 7, "v", 9⟩ : RefreshToken), ⟨0, 7, "w", 105⟩] :=
  refresh_discards_delete_error ⟨"s", 10, 100⟩
    ⟨[⟨7, "A", "a@x.io", "H", "", none⟩], [⟨0, 7, "v", 9⟩]⟩
    "v" "w" 5 ⟨0, 7, "v", 9⟩ ⟨7, "A", "a@x.io", "H", "", none⟩
    (by decide) (by decide) (by decide)

/-- C3 counterexample: a record whose expires-at equals the current instant
is NOT strictly in the future, yet Refresh treats it as valid and issues a
new pair instead of deleting it and failing `Unauthorized` — because
`IsExpired` uses `time.Now().After(ExpiresAt)`, which is false at equality. -/
theorem refresh_expiry_boundary_counterexample :
    (Refresh ⟨"s", 10, 100⟩
        ⟨[⟨7, "A", "a@x.io", "H", "", none⟩], [⟨0, 7, "v", 5⟩]⟩
        "v" 5 "w" {}).1 =
      .ok { accessToken := jwt.GenerateAccessToken ⟨"s", 10, 100⟩ 5 7 "a@x.io",
            refreshToken := "w", tokenType := "Bearer" } := by
  rfl

/-- C3 (amended): a found record is treated as expired iff the current time
is strictly AFTER its expires-at (so at `now = expiresAt` it still counts
as valid); for every record whose expires-at is strictly in the past,
Refresh deletes the record and fails `Unauthorized` with the expiry
message, and for every record whose expires-at is not in the past the
expiry failure never occurs. -/
theorem refresh_expiry_boundary_amended (cfg : config.JWTConfig)
    (st : AuthState) (v : String) (now : Nat) (fresh : String)
    (r : RefreshToken)
    (hfind : st.tokens.find? (fun t => t.token == v) = some r) :
    (r.expiresAt < now →
      Refresh cfg st v now fresh {} =
        (.error (Unauthorized "Refresh token has expired, please login again"),
         { st with tokens := st.tokens.filter (fun t => t.token != v) })) ∧
    (now ≤ r.expiresAt →
      ∀ e : AppError, (Refresh cfg st v now fresh {}).1 = .error e →
        e ≠ Unauthorized "Refresh token has expired, please login again") := by
  constructor
  · intro hexp
    have hE : r.IsExpired now = true := by
      simp [RefreshToken.IsExpired, hexp]
    simp [Refresh, RefreshTokenRepository.GetByToken, hfind, hE,
      RefreshTokenRepository.DeleteByToken]
  · intro hexp e he
    have hE : r.IsExpired now = false := by
      simp [RefreshToken.IsExpired]
      omega
    cases hu : st.users.find? (fun x => x.id == r.userID) with
    | some u =>
      simp [Refresh, RefreshTokenRepository.GetByToken, hfind, hE,
        UserRepository.GetByID, hu, RefreshTokenRepository.DeleteByToken,
        issueTokenPair, RefreshTokenRepository.Save] at he
    | none =>
      simp [Refresh, RefreshTokenRepository.GetByToken, hfind, hE,
        UserRepository.GetByID, hu] at he
      subst he
      decide

/-- C3 amended witness: a strictly-past record (expires-at 5, now 6) is
deleted and refused with the expiry message. -/
theorem refresh_expiry_boundary_amended_witness :
    Refresh ⟨"s", 10, 100⟩
        ⟨[⟨7, "A", "a@x.io", "H", "", none⟩], [⟨0, 7, "v", 5⟩]⟩
        "v" 6 "w" {} =
      (.error (Unauthorized "Refresh token has expired, please login again"),
       ⟨[⟨7, "A", "a@x.io", "H", "", none⟩], []⟩) :=
  (refresh_expiry_boundary_amended ⟨"s", 10, 100⟩
      ⟨[⟨7, "A", "a@x.io", "H", "", none⟩], [⟨0, 7, "v", 5⟩]⟩
      "v" 6 "w" ⟨0, 7, "v", 5⟩ (by decide)).1 (by decide)

end usecase

/-! ## Theorems about the JWT codec claims -/

namespace jwt

/-- C4: `ValidateAccessToken` returns the distinct `TokenExpired` error
exactly when the input is a well-formed token whose header algorithm is in
the HMAC family, whose signature was produced with that algorithm and the
configured access secret, and whose expiry has passed; every other failure
is the single generic `Unauthorized` value. -/
theorem validate_access_token_error_taxonomy (cfg : config.JWTConfig)
    (now : Nat) (input : TokenInput) :
    ((∃ e : apperror.AppError,
        ValidateAccessToken cfg now input = .error e ∧
        e.code = .tokenExpired) ↔
      (∃ t : SignedToken, input = .wellFormed t ∧ t.alg.isHMAC = true ∧
        t.sigAlg = t.alg ∧ t.sigKey = cfg.accessSecret ∧
        t.claims.expiresAt ≤ now)) ∧
    (∀ e : apperror.AppError, ValidateAccessToken cfg now input = .error e →
      e = apperror.TokenExpired ∨
      e = apperror.Unauthorized "invalid or malformed token") := by
  cases input with
  | malformed =>
    constructor
    · constructor
      · rintro ⟨e, he, hc⟩
        simp [ValidateAccessToken, parseWithClaims] at he
        subst he
        simp [apperror.Unauthorized, apperror.New] at hc
      · rintro ⟨t, ht, -⟩
        simp at ht
    · intro e he
      simp [ValidateAccessToken, parseWithClaims] at he
      exact Or.inr he.symm
  | wellFormed t =>
    by_cases halg : t.alg.isHMAC = true
    · by_cases hsig : t.sigAlg = t.alg ∧ t.sigKey = cfg.accessSecret
      · by_cases hexp : t.claims.expiresAt ≤ now
        · have hv : ValidateAccessToken cfg now (.wellFormed t) =
              .error apperror.TokenExpired := by
            simp [ValidateAccessToken, parseWithClaims, halg, hsig, hexp]
          refine ⟨⟨fun _ => ⟨t, rfl, halg, hsig.1, hsig.2, hexp⟩, fun _ =>
            ⟨apperror.TokenExpired, hv, rfl⟩⟩, ?_⟩
          intro e he
          rw [hv] at he
          exact Or.inl (Except.error.inj he).symm
        · have hv : ValidateAccessToken cfg now (.wellFormed t) =
              .ok t.claims := by
            simp [ValidateAccessToken, parseWithClaims, halg, hsig, hexp]
          constructor
          · constructor
            · rintro ⟨e, he, -⟩
              rw [hv] at he
              exact absurd he (by simp)
            · rintro ⟨t2, ht2, -, -, -, hexp2⟩
              rw [TokenInput.wellFormed.injEq] at ht2
              subst ht2
              exact absurd hexp2 hexp
          · intro e he
            rw [hv] at he
            exact absurd he (by simp)
      · have hv : ValidateAccessToken cfg now (.wellFormed t) =
            .error (apperror.Unauthorized "invalid or malformed token") := by
          simp only [ValidateAccessToken, parseWithClaims, halg]
          simp [hsig]
        constructor
        · constructor
          · rintro ⟨e, he, hc⟩
            rw [hv] at he
            obtain rfl := (Except.error.inj he).symm
            simp [apperror.Unauthorized, apperror.New] at hc
          · rintro ⟨t2, ht2, -, hs1, hs2, -⟩
            rw [TokenInput.wellFormed.injEq] at ht2
            subst ht2
            exact absurd ⟨hs1, hs2⟩ hsig
        · intro e he
          rw [hv] at he
          exact Or.inr (Except.error.inj he).symm
    · have hv : ValidateAccessToken cfg now (.wellFormed t) =
          .error (apperror.Unauthorized "invalid or malformed token") := by
        simp [ValidateAccessToken, parseWithClaims, halg]
      constructor
      · constructor
        · rintro ⟨e, he, hc⟩
          rw [hv] at he
          obtain rfl := (Except.error.inj he).symm
          simp [apperror.Unauthorized, apperror.New] at hc
        · rintro ⟨t2, ht2, ha, -, -, -⟩
          rw [TokenInput.wellFormed.injEq] at ht2
          subst ht2
          exact absurd ha halg
      · intro e he
        rw [hv] at he
        exact Or.inr (Except.error.inj he).symm

/-- C4 witness: the second conjunct applied to the structurally malformed
input, whose failure is the generic `Unauthorized`. -/
theorem validate_access_token_error_taxonomy_witness :
    apperror.Unauthorized "invalid or malformed token" =
        apperror.TokenExpired ∨
      apperror.Unauthorized "invalid or malformed token" =
        apperror.Unauthorized "invalid or malformed token" :=
  (validate_access_token_error_taxonomy ⟨"s", 10, 100⟩ 0 .malformed).2
    (apperror.Unauthorized "invalid or malformed token") rfl

/-- C5: access-token claims round-trip: validating — with the same secret,
before the access lifetime elapses — the token issued for user `userID`
with email `email` succeeds and returns exactly those claims. -/
theorem access_token_claims_round_trip (cfg : config.JWTConfig)
    (t0 now userID : Nat) (email : String)
    (hnow : now < t0 + cfg.accessExpiresDuration) :
    ValidateAccessToken cfg now (GenerateAccessToken cfg t0 userID email) =
      .ok { userID := userID, email := email,
            expiresAt := t0 + cfg.accessExpiresDuration,
            issuedAt := t0, subject := toString userID } := by
  have h : ¬ (t0 + cfg.accessExpiresDuration ≤ now) := by omega
  simp [ValidateAccessToken, GenerateAccessToken, parseWithClaims,
    Alg.isHMAC, h]

/-- C5 witness: a concrete issue-then-validate round trip. -/
theorem access_token_claims_round_trip_witness :
    ValidateAccessToken ⟨"s", 10, 100⟩ 3
        (GenerateAccessToken ⟨"s", 10, 100⟩ 0 42 "u@x.io") =
      .ok { userID := 42, email := "u@x.io", expiresAt := 10, issuedAt := 0,
            subject := "42" } :=
  access_token_claims_round_trip ⟨"s", 10, 100⟩ 0 3 42 "u@x.io" (by decide)

end jwt

end GoRest
